import Mathlib

/-!
Shallow embedding of the Plouton USB data-transfer module
(src/Plouton-UEFI/Plouton/hardware/usb_data_transfer.c and .h).

Modelling conventions:
* ASCII text (CHAR8 arrays) is modelled as `List Char`.
* `UINTN`, `UINT32`, `UINT64` counters are modelled as `Nat` (no arithmetic
  in the module can overflow 64 bits for the properties considered).
* The fixed byte region `Buffer[USB_DATA_BUFFER_SIZE]` together with its
  `CurrentSize` cursor is modelled as the list `Data` of the bytes stored
  at offsets `0 .. CurrentSize-1`; every code path that changes
  `CurrentSize` by `k` also copies exactly `k` bytes at the cursor, so the
  cursor always equals the length of the stored content, and we define
  `CurrentSize` as `Data.length`.  (Bytes past the cursor are zero and are
  never read back by the module.)
* A C pointer that may be NULL is modelled as an `Option`.
* External nondeterminism (EFI_FILE protocol outcomes, gRT->GetTime,
  GetTimeCounter) is supplied through explicit environment records.
* `AsciiSPrint`/`AsciiVSPrint`/`UnicodeSPrint` (EDK2 PrintLib) produce at
  most `BufferSize - 1` characters plus a terminating NUL and return the
  number of characters actually produced (never counting the terminator);
  this is modelled by `asciiSPrint`, which truncates to `bufSize - 1`.
* The EFI file handle is modelled as the observable history of the calls
  the module makes on it: the list of spans appended by `Write` and the
  number of durability `Flush` requests issued.
-/

/-- EFI status codes, restricted to the values this module produces or
propagates.  `EFI_DEVICE_ERROR` stands for an arbitrary error status
returned by an external EFI protocol call. -/
inductive EFI_STATUS where
  | EFI_SUCCESS
  | EFI_INVALID_PARAMETER
  | EFI_NOT_READY
  | EFI_BUFFER_TOO_SMALL
  | EFI_NOT_FOUND
  | EFI_OUT_OF_RESOURCES
  | EFI_DEVICE_ERROR
deriving DecidableEq, Repr

/-- EFI_ERROR(Status): true for every status other than EFI_SUCCESS. -/
def EFI_ERROR (s : EFI_STATUS) : Bool :=
  decide (s ≠ EFI_STATUS.EFI_SUCCESS)

/-- USB_DATA_FORMAT (usb_data_transfer.h). -/
inductive USB_DATA_FORMAT where
  | USB_DATA_FORMAT_JSON
  | USB_DATA_FORMAT_CSV
  | USB_DATA_FORMAT_BINARY
  | USB_DATA_FORMAT_TEXT
deriving DecidableEq, Repr

/-- USB_DATA_STATUS (usb_data_transfer.h). -/
inductive USB_DATA_STATUS where
  | USB_DATA_STATUS_NOT_INITIALIZED
  | USB_DATA_STATUS_READY
  | USB_DATA_STATUS_WRITING
  | USB_DATA_STATUS_ERROR
  | USB_DATA_STATUS_FULL
deriving DecidableEq, Repr

/-- EFI_TIME, restricted to the fields the module reads. -/
structure EFI_TIME where
  Year : Nat
  Month : Nat
  Day : Nat
  Hour : Nat
  Minute : Nat
  Second : Nat
deriving DecidableEq, Repr

/-- USB_DATA_STATS (usb_data_transfer.h). -/
structure USB_DATA_STATS where
  TotalBytesWritten : Nat
  TotalFilesCreated : Nat
  WriteErrors : Nat
  BufferOverflows : Nat
  LastWriteTime : Nat
  Status : USB_DATA_STATUS
deriving DecidableEq, Repr

/-- USB_DATA_BUFFER (usb_data_transfer.h): `Data` is the content stored at
offsets `0 .. CurrentSize-1` of the fixed byte region, so the C cursor
`CurrentSize` is `Data.length` (see module comment). -/
structure USB_DATA_BUFFER where
  Data : List Char
  MaxSize : Nat
  LastWrite : EFI_TIME
deriving DecidableEq, Repr

/-- CurrentSize cursor of the data buffer (see module comment: the cursor
always equals the length of the stored content). -/
def USB_DATA_BUFFER.CurrentSize (b : USB_DATA_BUFFER) : Nat :=
  b.Data.length

/-- Observable state of the external EFI_FILE handle: the spans the module
has appended with `Write` (in order) and the number of durability `Flush`
requests it has issued. -/
structure EFI_FILE where
  Writes : List (List Char)
  FlushRequests : Nat
deriving DecidableEq, Repr

/-- USB_DATA_CONTEXT (usb_data_transfer.h), restricted to the fields the
module reads or writes.  `FileSystem` is `Option Unit`: the module only
ever dereferences it, and nothing in the repository assigns it, so after
the ZeroMem in InitUsbDataTransfer it stays `none` (NULL). -/
structure USB_DATA_CONTEXT where
  FileSystem : Option Unit
  LogFile : Option EFI_FILE
  DataBuffer : USB_DATA_BUFFER
  Statistics : USB_DATA_STATS
  DataFormat : USB_DATA_FORMAT
  AutoFlush : Bool
  FileName : List Char
deriving DecidableEq, Repr

/-- Outcome oracle for one WriteToFile invocation: whether the external
SetPosition, Write and Flush protocol calls succeed, and the value
GetTimeCounter() returns. -/
structure FILE_ENV where
  setPosOk : Bool
  writeOk : Bool
  flushOk : Bool
  timeCounter : Nat
deriving DecidableEq, Repr

/-- Environment for one public operation: the current wall-clock time
(gRT->GetTime) and outcome oracles for the at most two WriteToFile
invocations the operation can make. -/
structure OP_ENV where
  time : EFI_TIME
  fe1 : FILE_ENV
  fe2 : FILE_ENV
deriving DecidableEq, Repr

/-- USB_DATA_BUFFER_SIZE (usb_data_transfer.h): 64 KiB. -/
def USB_DATA_BUFFER_SIZE : Nat := 64 * 1024

/-- EDK2 AsciiSPrint/AsciiVSPrint truncation: at most `bufSize - 1`
characters are produced (one byte is reserved for the NUL terminator). -/
def asciiSPrint (bufSize : Nat) (s : List Char) : List Char :=
  s.take (bufSize - 1)

/-- AsciiStrLen / reading a CHAR8 buffer as a NUL-terminated string:
the characters before the first NUL byte. -/
def asciiStr (s : List Char) : List Char :=
  s.takeWhile (fun c => c ≠ Char.ofNat 0)

/-- AsciiStrLen of a CHAR8 buffer. -/
def asciiStrLen (s : List Char) : Nat :=
  (asciiStr s).length

/-- Decimal digit character. -/
def digitChar (d : Nat) : Char :=
  Char.ofNat (48 + d)

/-- Fuelled decimal rendering: most significant digit first. -/
def natDecAux : Nat → Nat → List Char → List Char
  | 0, _, acc => acc
  | fuel + 1, n, acc =>
    if n < 10 then digitChar n :: acc
    else natDecAux fuel (n / 10) (digitChar (n % 10) :: acc)

/-- Decimal rendering of a Nat, as the %d print directive produces it. -/
def natDec (n : Nat) : List Char :=
  natDecAux (n + 1) n []

/-- Zero-padded decimal of width `w`, as the %0wd directive produces it
(values with more than `w` digits keep all their digits). -/
def natDecPad (w n : Nat) : List Char :=
  List.replicate (w - (natDec n).length) '0' ++ natDec n

/-- The timestamp string AddToBuffer renders with
AsciiSPrint(TimeStamp, 32, chr(91) %04d-%02d-%02d %02d:%02d:%02d chr(93) space, ...). -/
def tsString (t : EFI_TIME) : List Char :=
  asciiSPrint 32
    (("[").toList ++ natDecPad 4 t.Year ++ ("-").toList ++ natDecPad 2 t.Month ++
      ("-").toList ++ natDecPad 2 t.Day ++ (" ").toList ++ natDecPad 2 t.Hour ++
      (":").toList ++ natDecPad 2 t.Minute ++ (":").toList ++ natDecPad 2 t.Second ++
      ("] ").toList)

/-- The JSON escaping loop of FormatJsonString: quote, backslash, newline,
carriage return and tab become two-character escapes, every other byte is
copied unchanged. -/
def escapeJson : List Char → List Char
  | [] => []
  | c :: rest =>
    (if c = '"' then ['\\', '"']
     else if c = '\\' then ['\\', '\\']
     else if c = '\n' then ['\\', 'n']
     else if c = '\r' then ['\\', 'r']
     else if c = '\t' then ['\\', 't']
     else [c]) ++ escapeJson rest

/-- FormatJsonString: NULL input or a failed AllocateRuntimePool (oracle
`allocOk`) yields NULL, otherwise the escaped copy of the input string. -/
def FormatJsonString (allocOk : Bool) (input : Option (List Char)) : Option (List Char) :=
  match input with
  | none => none
  | some s => if allocOk then some (escapeJson s) else none

/-- The record UsbDataWrite formats, together with FormattedSize, for one
(Data, DataSize) argument pair.  JSON/CSV/TEXT record the FormattedData
string; BINARY records the header line.  All renderings go through the
256-byte FormattedData scratch buffer.  In the TEXT branch with
DataSize < 256 the code copies DataSize raw bytes (modelled as
`d.take n`; the C reads that many bytes at the pointer). -/
def formatData (fmt : USB_DATA_FORMAT) (d : List Char) (n : Nat) : List Char × Nat :=
  match fmt with
  | .USB_DATA_FORMAT_JSON =>
    let fd := asciiSPrint 256
      (("\x7b\"size\":").toList ++ natDec n ++ (",\"data\":\"").toList ++
        asciiStr d ++ ("\"\x7d").toList)
    (fd, fd.length)
  | .USB_DATA_FORMAT_CSV =>
    let fd := asciiSPrint 256 (natDec n ++ (",\"").toList ++ asciiStr d ++ ("\"").toList)
    (fd, fd.length)
  | .USB_DATA_FORMAT_BINARY =>
    let fd := asciiSPrint 256 (("BINARY_DATA_SIZE:").toList ++ natDec n ++ ("\n").toList)
    (fd, fd.length)
  | .USB_DATA_FORMAT_TEXT =>
    if n < 256 then (d.take n, n)
    else
      let fd := asciiSPrint 256
        (("Data too large to display (").toList ++ natDec n ++ (" bytes)\n").toList)
      (fd, fd.length)

/-- Replace the Status field of the statistics. -/
def setStatus (ctx : USB_DATA_CONTEXT) (st : USB_DATA_STATUS) : USB_DATA_CONTEXT :=
  { ctx with Statistics := { ctx.Statistics with Status := st } }

/-- WriteToFile (usb_data_transfer.c:224-261): NULL/empty checks, then
SetPosition to end-of-file, then Write; on write failure WriteErrors is
incremented and the function returns before any Flush; on write success
TotalBytesWritten and LastWriteTime are updated and one durability Flush
request is issued (its own failure is only logged), returning
EFI_SUCCESS. -/
def WriteToFile (ctx : USB_DATA_CONTEXT) (dataOpt : Option (List Char)) (dataSize : Nat)
    (fe : FILE_ENV) : EFI_STATUS × USB_DATA_CONTEXT :=
  match ctx.LogFile, dataOpt with
  | none, _ => (.EFI_INVALID_PARAMETER, ctx)
  | some _, none => (.EFI_INVALID_PARAMETER, ctx)
  | some f, some d =>
    if dataSize = 0 then (.EFI_INVALID_PARAMETER, ctx)
    else if fe.setPosOk = false then (.EFI_DEVICE_ERROR, ctx)
    else if fe.writeOk = false then
      (.EFI_DEVICE_ERROR,
        { ctx with Statistics :=
            { ctx.Statistics with WriteErrors := ctx.Statistics.WriteErrors + 1 } })
    else
      (.EFI_SUCCESS,
        { ctx with
            LogFile := some { Writes := f.Writes ++ [d], FlushRequests := f.FlushRequests + 1 },
            Statistics :=
              { ctx.Statistics with
                  TotalBytesWritten := ctx.Statistics.TotalBytesWritten + dataSize,
                  LastWriteTime := fe.timeCounter } })

/-- UsbDataFlush (usb_data_transfer.c:500-537): no-op on an empty buffer;
skip when not forced, auto-flush disabled and occupancy below half;
otherwise hand the whole buffer to WriteToFile, clearing it (and stamping
LastWrite from gRT->GetTime) only on success, and set Status to READY or
ERROR from the outcome. -/
def UsbDataFlush (ctx : USB_DATA_CONTEXT) (force : Bool) (env : OP_ENV) :
    EFI_STATUS × USB_DATA_CONTEXT :=
  if ctx.DataBuffer.Data.length = 0 then (.EFI_SUCCESS, ctx)
  else if force = false ∧ ctx.AutoFlush = false ∧
      ctx.DataBuffer.Data.length < ctx.DataBuffer.MaxSize / 2 then
    (.EFI_SUCCESS, ctx)
  else
    let ctxW := setStatus ctx .USB_DATA_STATUS_WRITING
    let r := WriteToFile ctxW (some ctxW.DataBuffer.Data) ctxW.DataBuffer.Data.length env.fe1
    let ctx3 :=
      if r.1 = .EFI_SUCCESS then
        { r.2 with DataBuffer := { r.2.DataBuffer with Data := [], LastWrite := env.time } }
      else r.2
    (r.1, setStatus ctx3
      (if r.1 = .EFI_SUCCESS then .USB_DATA_STATUS_READY else .USB_DATA_STATUS_ERROR))

/-- Append bytes at the buffer cursor (CopyMem at Buffer + CurrentSize
followed by the matching CurrentSize increment). -/
def appendBuf (ctx : USB_DATA_CONTEXT) (l : List Char) : USB_DATA_CONTEXT :=
  { ctx with DataBuffer := { ctx.DataBuffer with Data := ctx.DataBuffer.Data ++ l } }

/-- The timestamp step of AddToBuffer (usb_data_transfer.c:287-314): when
the buffer is empty, render the wall-clock timestamp and insert it when it
fits; its not fitting never causes failure. -/
def addTimestamp (ctx : USB_DATA_CONTEXT) (t : EFI_TIME) : USB_DATA_CONTEXT :=
  if ctx.DataBuffer.Data.length = 0 then
    if ctx.DataBuffer.Data.length + (tsString t).length ≤ ctx.DataBuffer.MaxSize then
      appendBuf ctx (tsString t)
    else ctx
  else ctx

/-- The final step of AddToBuffer (usb_data_transfer.c:316-332): append the
line and an unconditional newline byte when the line fits, else count a
buffer overflow and fail with EFI_BUFFER_TOO_SMALL. -/
def addPayload (ctx : USB_DATA_CONTEXT) (s : List Char) : EFI_STATUS × USB_DATA_CONTEXT :=
  if ctx.DataBuffer.Data.length + s.length ≤ ctx.DataBuffer.MaxSize then
    (.EFI_SUCCESS, appendBuf ctx (s ++ [Char.ofNat 10]))
  else
    (.EFI_BUFFER_TOO_SMALL,
      { ctx with Statistics :=
          { ctx.Statistics with BufferOverflows := ctx.Statistics.BufferOverflows + 1 } })

/-- AddToBuffer (usb_data_transfer.c:264-333): force a flush when the line
plus two slack bytes (potential timestamp and newline) does not fit,
failing when that flush fails; then the timestamp step and the payload
step.  The timestamp and the inner forced flush read the operation
environment. -/
def AddToBuffer (ctx : USB_DATA_CONTEXT) (formattedData : Option (List Char)) (env : OP_ENV) :
    EFI_STATUS × USB_DATA_CONTEXT :=
  match formattedData with
  | none => (.EFI_INVALID_PARAMETER, ctx)
  | some fd =>
    let s := asciiStr fd
    let step1 : EFI_STATUS × USB_DATA_CONTEXT :=
      if ctx.DataBuffer.Data.length + (s.length + 2) > ctx.DataBuffer.MaxSize then
        UsbDataFlush ctx true env
      else (.EFI_SUCCESS, ctx)
    if step1.1 ≠ .EFI_SUCCESS then step1
    else addPayload (addTimestamp step1.2 env.time) s

/-- UsbDataWrite (usb_data_transfer.c:383-473): parameter checks, the
NOT_READY gate, format the record, then either two direct WriteToFile
calls (BINARY: header, then the raw payload bytes) or one AddToBuffer; the
final Status is READY or ERROR from the outcome.  The `Timestamp`
parameter appears in the C signature but is never read in the body. -/
def UsbDataWrite (ctx : USB_DATA_CONTEXT) (dataOpt : Option (List Char)) (dataSize : Nat)
    (_Timestamp : Bool) (env : OP_ENV) : EFI_STATUS × USB_DATA_CONTEXT :=
  match dataOpt with
  | none => (.EFI_INVALID_PARAMETER, ctx)
  | some d =>
    if dataSize = 0 then (.EFI_INVALID_PARAMETER, ctx)
    else if ctx.Statistics.Status ≠ .USB_DATA_STATUS_READY then (.EFI_NOT_READY, ctx)
    else
      let ctx0 := setStatus ctx .USB_DATA_STATUS_WRITING
      let fmtd := formatData ctx0.DataFormat d dataSize
      let res :=
        if ctx0.DataFormat = .USB_DATA_FORMAT_BINARY then
          let w1 := WriteToFile ctx0 (some fmtd.1) fmtd.2 env.fe1
          if w1.1 = .EFI_SUCCESS ∧ dataSize > 0 then
            WriteToFile w1.2 (some (d.take dataSize)) dataSize env.fe2
          else w1
        else AddToBuffer ctx0 (some fmtd.1) env
      (res.1, setStatus res.2
        (if res.1 = .EFI_SUCCESS then .USB_DATA_STATUS_READY else .USB_DATA_STATUS_ERROR))

/-- UsbDataPrintf (usb_data_transfer.c:475-498): `rendered` is the full
text the format string and arguments denote; AsciiVSPrint stores at most
1023 characters of it in the 1024-byte scratch buffer and returns the
number of characters stored (never the would-be length), after which the
code compares that return value against 1024 and otherwise forwards the
stored text to UsbDataWrite with Timestamp = FALSE.  `renderedOpt = none`
models a NULL FormatString. -/
def UsbDataPrintf (ctx : USB_DATA_CONTEXT) (renderedOpt : Option (List Char)) (env : OP_ENV) :
    EFI_STATUS × USB_DATA_CONTEXT :=
  match renderedOpt with
  | none => (.EFI_INVALID_PARAMETER, ctx)
  | some rendered =>
    let formattedLength := min rendered.length 1023
    let formattedBuffer := rendered.take 1023
    if formattedLength ≥ 1024 then (.EFI_BUFFER_TOO_SMALL, ctx)
    else UsbDataWrite ctx (some formattedBuffer) formattedLength false env

/-- The single-line JSON record UsbDataLogJson (usb_data_transfer.c:585-623)
renders into its 512-byte JsonBuffer scratch buffer: the record with the
given level, escaped message and, when the optional Data argument is
non-NULL, the hasData marker. -/
def jsonRecordOf (logLevel : Nat) (escapedMessage : List Char) (hasData : Bool) : List Char :=
  asciiSPrint 512
    (("\x7b\"level\":").toList ++ natDec logLevel ++ (",\"message\":\"").toList ++
      escapedMessage ++
      (if hasData then ("\",\"hasData\":true\x7d").toList else ("\"\x7d").toList))

/-- UsbDataLogJson (usb_data_transfer.c:585-623): escape the message with
FormatJsonString (failing with EFI_OUT_OF_RESOURCES when it returns NULL),
render the record and append it.  `hasData` is whether the optional Data
argument is non-NULL; `allocOk` is the AllocateRuntimePool oracle inside
FormatJsonString. -/
def UsbDataLogJson (ctx : USB_DATA_CONTEXT) (logLevel : Nat) (message : Option (List Char))
    (hasData : Bool) (allocOk : Bool) (env : OP_ENV) : EFI_STATUS × USB_DATA_CONTEXT :=
  match FormatJsonString allocOk message with
  | none => (.EFI_OUT_OF_RESOURCES, ctx)
  | some escapedMessage =>
    AddToBuffer ctx (some (jsonRecordOf logLevel escapedMessage hasData)) env

/-- One Block IO handle as DetectUsbStorage observes it: whether
HandleProtocol(BlockIo) succeeds, the two media flags, and whether
HandleProtocol(SimpleFileSystem) succeeds. -/
structure BLOCK_DEVICE where
  hasBlockIo : Bool
  removableMedia : Bool
  mediaPresent : Bool
  hasSimpleFileSystem : Bool
deriving DecidableEq, Repr

/-- Environment InitUsbDataTransfer runs in: the LocateHandleBuffer
outcome and handle list, the OpenVolume and Open/create outcomes inside
OpenLogFile, and the wall-clock time for the generated file name. -/
structure INIT_ENV where
  locateOk : Bool
  devices : List BLOCK_DEVICE
  openVolumeOk : Bool
  openFileOk : Bool
  time : EFI_TIME
deriving DecidableEq, Repr

/-- DetectUsbStorage (usb_data_transfer.c:85-136): succeeds iff the handle
enumeration succeeds, is non-empty, and some handle exposes Block IO with
removable, present media and also exposes Simple File System.  The
function returns only a status: it stores nothing in any context. -/
def DetectUsbStorage (env : INIT_ENV) : EFI_STATUS :=
  if env.locateOk = false ∨ env.devices.length = 0 then .EFI_NOT_FOUND
  else if env.devices.any (fun dev =>
      dev.hasBlockIo && dev.removableMedia && dev.mediaPresent && dev.hasSimpleFileSystem) then
    .EFI_SUCCESS
  else .EFI_NOT_FOUND

/-- The file path OpenLogFile renders for a fresh file:
backslash plouton_data_YYYYMMDD_HHMMSS.dat (UnicodeSPrint into a 128-wide
buffer). -/
def genFileName (t : EFI_TIME) : List Char :=
  asciiSPrint 128
    (("\\plouton_data_").toList ++ natDecPad 4 t.Year ++ natDecPad 2 t.Month ++
      natDecPad 2 t.Day ++ ("_").toList ++ natDecPad 2 t.Hour ++ natDecPad 2 t.Minute ++
      natDecPad 2 t.Second ++ (".dat").toList)

/-- OpenLogFile (usb_data_transfer.c:139-222): dereferences
Context->FileSystem to open the volume — the module never assigns that
field, so with `FileSystem = none` the call cannot succeed (modelled as a
device error; in C it is a NULL-pointer dereference).  On success the new
handle replaces the previous one and the rendered path is recorded in
FileName. -/
def OpenLogFile (ctx : USB_DATA_CONTEXT) (createNew : Bool) (env : INIT_ENV) :
    EFI_STATUS × USB_DATA_CONTEXT :=
  if ctx.FileSystem = none ∨ env.openVolumeOk = false then (.EFI_DEVICE_ERROR, ctx)
  else
    let filePath :=
      if createNew ∨ ctx.LogFile = none then genFileName env.time
      else asciiSPrint 128 (("\\").toList ++ ctx.FileName)
    if env.openFileOk = false then (.EFI_DEVICE_ERROR, ctx)
    else
      (.EFI_SUCCESS,
        { ctx with
            LogFile := some { Writes := [], FlushRequests := 0 },
            FileName := asciiSPrint 128 filePath })

/-- InitUsbDataTransfer (usb_data_transfer.c:337-381): zero the context,
set buffer capacity, format and auto-flush, run DetectUsbStorage (Status
becomes ERROR on failure), set Status to READY, then open the initial log
file (Status becomes ERROR on failure). -/
def InitUsbDataTransfer (format : USB_DATA_FORMAT) (autoFlush : Bool) (env : INIT_ENV) :
    EFI_STATUS × USB_DATA_CONTEXT :=
  let zeroTime : EFI_TIME := ⟨0, 0, 0, 0, 0, 0⟩
  let ctx0 : USB_DATA_CONTEXT :=
    { FileSystem := none
      LogFile := none
      DataBuffer := { Data := [], MaxSize := USB_DATA_BUFFER_SIZE, LastWrite := zeroTime }
      Statistics :=
        { TotalBytesWritten := 0, TotalFilesCreated := 0, WriteErrors := 0,
          BufferOverflows := 0, LastWriteTime := 0,
          Status := .USB_DATA_STATUS_NOT_INITIALIZED }
      DataFormat := format
      AutoFlush := autoFlush
      FileName := [] }
  if EFI_ERROR (DetectUsbStorage env) then
    (DetectUsbStorage env, setStatus ctx0 .USB_DATA_STATUS_ERROR)
  else
    let ctx1 := setStatus ctx0 .USB_DATA_STATUS_READY
    let o := OpenLogFile ctx1 true env
    if EFI_ERROR o.1 then (o.1, setStatus o.2 .USB_DATA_STATUS_ERROR)
    else (.EFI_SUCCESS, o.2)

/-- One public buffer-path operation, carrying its own environment. -/
inductive UsbOp where
  | write (dataOpt : Option (List Char)) (dataSize : Nat) (timestamp : Bool) (env : OP_ENV)
  | flush (force : Bool) (env : OP_ENV)

/-- Run one operation, keeping only the context. -/
def stepOp (ctx : USB_DATA_CONTEXT) : UsbOp → USB_DATA_CONTEXT
  | .write dataOpt dataSize timestamp env => (UsbDataWrite ctx dataOpt dataSize timestamp env).2
  | .flush force env => (UsbDataFlush ctx force env).2

/-- Run a sequence of UsbDataWrite/UsbDataFlush calls. -/
def runOps (ctx : USB_DATA_CONTEXT) : List UsbOp → USB_DATA_CONTEXT
  | [] => ctx
  | op :: rest => runOps (stepOp ctx op) rest

/-!
Specification-side definitions for the round-trip claim: a standard JSON
string-body decoder, a syntactic validity check for string bodies (a
strict subset of the RFC 8259 string grammar: printable characters plus
the five escapes the module emits, no raw control bytes, no raw quote or
backslash), and a parser for the exact record shape UsbDataLogJson emits.
These formalise the spec words and are compared against the code-derived
definitions above; they are not translations of repository code.
-/

/-- Standard JSON string-body unescaping restricted to the single-character
escapes (no \u support; the encoder under verification emits only the five
escapes quote, backslash, n, r, t, all of which are covered).  Fails on a
dangling backslash or an unknown escape. -/
def jsonUnescape : List Char → Option (List Char)
  | [] => some []
  | c :: rest =>
    if c = '\\' then
      match rest with
      | [] => none
      | e :: rest2 =>
        let decoded : Option Char :=
          if e = '"' then some '"'
          else if e = '\\' then some '\\'
          else if e = '/' then some '/'
          else if e = 'n' then some (Char.ofNat 10)
          else if e = 'r' then some (Char.ofNat 13)
          else if e = 't' then some (Char.ofNat 9)
          else if e = 'b' then some (Char.ofNat 8)
          else if e = 'f' then some (Char.ofNat 12)
          else none
        match decoded, jsonUnescape rest2 with
        | some d, some tail => some (d :: tail)
        | _, _ => none
    else
      match jsonUnescape rest with
      | none => none
      | some tail => some (c :: tail)

/-- Literal matcher: strip an expected literal from the front of the
input, returning the remainder. -/
def stripLit : List Char → List Char → Option (List Char)
  | [], s => some s
  | _ :: _, [] => none
  | p :: ps, c :: cs => if p = c then stripLit ps cs else none

/-- Scan a JSON string body up to its closing unescaped quote, returning
the raw (still escaped) body and the remainder after the quote. -/
def scanBody : List Char → Option (List Char × List Char)
  | [] => none
  | c :: rest =>
    if c = '"' then some ([], rest)
    else if c = '\\' then
      match rest with
      | [] => none
      | c2 :: rest2 =>
        match scanBody rest2 with
        | none => none
        | some (b, r) => some (c :: c2 :: b, r)
    else
      match scanBody rest with
      | none => none
      | some (b, r) => some (c :: b, r)

/-- Syntactic validity of a raw JSON string body, as a strict subset of
the RFC 8259 grammar: only the five escapes the module emits, and every
unescaped character printable (at least 0x20) and neither a quote nor a
backslash. -/
def validBody : List Char → Bool
  | [] => true
  | c :: rest =>
    if c = '\\' then
      match rest with
      | [] => false
      | e :: rest2 =>
        decide (e = '"' ∨ e = '\\' ∨ e = 'n' ∨ e = 'r' ∨ e = 't') && validBody rest2
    else
      decide (32 ≤ c.toNat ∧ c ≠ '"') && validBody rest

/-- Parser for the exact record shape UsbDataLogJson emits: the literal
level prefix, a non-empty run of decimal digits, the literal message
separator, a syntactically valid string body, and the closing literal
(with or without the hasData marker), consuming the whole input.  Returns
the digit run, the raw body and the hasData flag. -/
def parseJsonRecord (r : List Char) : Option (List Char × List Char × Bool) :=
  match stripLit (("\x7b\"level\":").toList) r with
  | none => none
  | some r1 =>
    let ds := r1.takeWhile Char.isDigit
    let r2 := r1.dropWhile Char.isDigit
    if ds = [] then none
    else
      match stripLit ((",\"message\":\"").toList) r2 with
      | none => none
      | some r3 =>
        match scanBody r3 with
        | none => none
        | some (body, r4) =>
          if validBody body = false then none
          else if r4 = ("\x7d").toList then some (ds, body, false)
          else if r4 = (",\"hasData\":true\x7d").toList then some (ds, body, true)
          else none


theorem WriteToFile_DataBuffer (ctx : USB_DATA_CONTEXT) (dataOpt : Option (List Char))
    (dataSize : Nat) (fe : FILE_ENV) :
    (WriteToFile ctx dataOpt dataSize fe).2.DataBuffer = ctx.DataBuffer := by
  unfold WriteToFile
  split <;> try rfl
  split <;> try rfl
  split <;> try rfl
  split <;> rfl

theorem UsbDataFlush_Data_cases (ctx : USB_DATA_CONTEXT) (force : Bool) (env : OP_ENV) :
    (UsbDataFlush ctx force env).2.DataBuffer.Data = ctx.DataBuffer.Data ∨
    (UsbDataFlush ctx force env).2.DataBuffer.Data = [] := by
  unfold UsbDataFlush
  split
  · left; rfl
  · split
    · left; rfl
    · have hw := WriteToFile_DataBuffer (setStatus ctx .USB_DATA_STATUS_WRITING)
        (some (setStatus ctx .USB_DATA_STATUS_WRITING).DataBuffer.Data)
        (setStatus ctx .USB_DATA_STATUS_WRITING).DataBuffer.Data.length env.fe1
      simp only [setStatus] at hw ⊢
      split
      · right; simp
      · left; simp [hw]

theorem UsbDataFlush_MaxSize (ctx : USB_DATA_CONTEXT) (force : Bool) (env : OP_ENV) :
    (UsbDataFlush ctx force env).2.DataBuffer.MaxSize = ctx.DataBuffer.MaxSize := by
  unfold UsbDataFlush
  split
  · rfl
  · split
    · rfl
    · have hw := WriteToFile_DataBuffer (setStatus ctx .USB_DATA_STATUS_WRITING)
        (some (setStatus ctx .USB_DATA_STATUS_WRITING).DataBuffer.Data)
        (setStatus ctx .USB_DATA_STATUS_WRITING).DataBuffer.Data.length env.fe1
      simp only [setStatus] at hw ⊢
      split <;> simp [hw]

theorem UsbDataFlush_fail_Data (ctx : USB_DATA_CONTEXT) (force : Bool) (env : OP_ENV)
    (h : (UsbDataFlush ctx force env).1 ≠ .EFI_SUCCESS) :
    (UsbDataFlush ctx force env).2.DataBuffer.Data = ctx.DataBuffer.Data := by
  revert h
  unfold UsbDataFlush
  split
  · intro h; exact absurd rfl h
  · split
    · intro h; exact absurd rfl h
    · have hw := WriteToFile_DataBuffer (setStatus ctx .USB_DATA_STATUS_WRITING)
        (some (setStatus ctx .USB_DATA_STATUS_WRITING).DataBuffer.Data)
        (setStatus ctx .USB_DATA_STATUS_WRITING).DataBuffer.Data.length env.fe1
      simp only [setStatus] at hw ⊢
      split
      · rename_i hs; intro h; exact absurd hs h
      · intro _; simp [hw]

theorem UsbDataFlush_force_success_Data (ctx : USB_DATA_CONTEXT) (env : OP_ENV)
    (h : (UsbDataFlush ctx true env).1 = .EFI_SUCCESS) :
    (UsbDataFlush ctx true env).2.DataBuffer.Data = [] := by
  revert h
  unfold UsbDataFlush
  split
  · rename_i hz; intro _; simpa using hz
  · split
    · rename_i hskip; exact absurd hskip.1 (by simp)
    · simp only [setStatus]
      split
      · intro _; simp
      · rename_i hs; intro h; exact absurd h hs

theorem tsString_length_le (t : EFI_TIME) : (tsString t).length ≤ 31 := by
  unfold tsString asciiSPrint
  simpa using List.length_take_le _ _

theorem asciiStr_length_le (l : List Char) : (asciiStr l).length ≤ l.length := by
  induction l with
  | nil => simp [asciiStr]
  | cons c rest ih =>
    simp only [asciiStr, List.takeWhile_cons] at ih ⊢
    split <;> simp [asciiStr] at ih ⊢ <;> omega

theorem formatData_length_le (fmt : USB_DATA_FORMAT) (d : List Char) (n : Nat) :
    ((formatData fmt d n).1).length ≤ 255 := by
  cases fmt <;> simp only [formatData, asciiSPrint]
  · simpa using List.length_take_le _ _
  · simpa using List.length_take_le _ _
  · simpa using List.length_take_le _ _
  · split
    · rename_i hn
      calc (d.take n).length ≤ n := List.length_take_le _ _
        _ ≤ 255 := by omega
    · simpa using List.length_take_le _ _

theorem addTimestamp_MaxSize (ctx : USB_DATA_CONTEXT) (t : EFI_TIME) :
    (addTimestamp ctx t).DataBuffer.MaxSize = ctx.DataBuffer.MaxSize := by
  unfold addTimestamp appendBuf
  split
  · split <;> rfl
  · rfl

theorem addTimestamp_Data_length (ctx : USB_DATA_CONTEXT) (t : EFI_TIME) :
    (addTimestamp ctx t).DataBuffer.Data.length ≤ max ctx.DataBuffer.Data.length 31 := by
  have hts := tsString_length_le t
  unfold addTimestamp appendBuf
  split
  · split
    · rename_i hz _
      simp [hz]; omega
    · simp
  · simp

theorem addTimestamp_empty_Data (ctx : USB_DATA_CONTEXT) (t : EFI_TIME)
    (hz : ctx.DataBuffer.Data = []) (hfit : (tsString t).length ≤ ctx.DataBuffer.MaxSize) :
    (addTimestamp ctx t).DataBuffer.Data = tsString t := by
  unfold addTimestamp appendBuf
  rw [if_pos (by simp [hz])]
  rw [if_pos (by simp [hz]; omega)]
  simp [hz]

theorem addTimestamp_nonempty (ctx : USB_DATA_CONTEXT) (t : EFI_TIME)
    (hz : ctx.DataBuffer.Data ≠ []) : addTimestamp ctx t = ctx := by
  unfold addTimestamp
  rw [if_neg (by simpa using hz)]

theorem addPayload_length (ctx : USB_DATA_CONTEXT) (s : List Char) :
    (addPayload ctx s).2.DataBuffer.Data.length ≤
      max ctx.DataBuffer.Data.length (ctx.DataBuffer.Data.length + s.length + 1) := by
  unfold addPayload appendBuf
  split <;> simp <;> omega

theorem addPayload_MaxSize (ctx : USB_DATA_CONTEXT) (s : List Char) :
    (addPayload ctx s).2.DataBuffer.MaxSize = ctx.DataBuffer.MaxSize := by
  unfold addPayload appendBuf
  split <;> rfl

theorem AddToBuffer_main (ctx : USB_DATA_CONTEXT) (fd : List Char) (env : OP_ENV)
    (hbig : 1055 ≤ ctx.DataBuffer.MaxSize)
    (hlen : ctx.DataBuffer.Data.length ≤ ctx.DataBuffer.MaxSize)
    (hs : (asciiStr fd).length ≤ 1023) :
    (AddToBuffer ctx (some fd) env).2.DataBuffer.Data.length ≤ ctx.DataBuffer.MaxSize ∧
    ((AddToBuffer ctx (some fd) env).1 ≠ .EFI_SUCCESS →
      (AddToBuffer ctx (some fd) env).2.DataBuffer.Data = ctx.DataBuffer.Data) := by
  have hts := tsString_length_le env.time
  unfold AddToBuffer
  simp only []
  split
  · -- forced flush branch
    rename_i hneed
    by_cases hf : (UsbDataFlush ctx true env).1 = EFI_STATUS.EFI_SUCCESS
    · have hempty := UsbDataFlush_force_success_Data ctx env hf
      have hmax2 := UsbDataFlush_MaxSize ctx true env
      rw [if_neg (by simp [hf])]
      set ctx1 := (UsbDataFlush ctx true env).2 with hctx1
      have hts2 : (addTimestamp ctx1 env.time).DataBuffer.Data = tsString env.time :=
        addTimestamp_empty_Data ctx1 env.time hempty (by rw [hmax2]; omega)
      have hmax3 := addTimestamp_MaxSize ctx1 env.time
      constructor
      · have := addPayload_length (addTimestamp ctx1 env.time) (asciiStr fd)
        have h2 : (addTimestamp ctx1 env.time).DataBuffer.Data.length ≤ 31 := by
          rw [hts2]; exact hts
        omega
      · intro herr
        exfalso
        apply herr
        unfold addPayload
        rw [if_pos]
        rw [hts2, hmax3, hmax2]
        have h2 : (tsString env.time).length ≤ 31 := hts
        omega
    · rw [if_pos (by simp [hf])]
      have hd := UsbDataFlush_fail_Data ctx true env hf
      have hm := UsbDataFlush_MaxSize ctx true env
      constructor
      · rw [hd]; exact hlen
      · intro _; exact hd
  · -- no flush needed
    rename_i hfit
    rw [if_neg (by simp)]
    dsimp only
    by_cases hz : ctx.DataBuffer.Data = []
    · have hts2 : (addTimestamp ctx env.time).DataBuffer.Data = tsString env.time :=
        addTimestamp_empty_Data ctx env.time hz (by omega)
      have hmax3 := addTimestamp_MaxSize ctx env.time
      constructor
      · have := addPayload_length (addTimestamp ctx env.time) (asciiStr fd)
        have h2 : (addTimestamp ctx env.time).DataBuffer.Data.length ≤ 31 := by
          rw [hts2]; exact hts
        omega
      · intro herr
        exfalso
        apply herr
        unfold addPayload
        rw [if_pos]
        rw [hts2, hmax3]
        have h2 : (tsString env.time).length ≤ 31 := hts
        omega
    · rw [addTimestamp_nonempty ctx env.time hz]
      constructor
      · have := addPayload_length ctx (asciiStr fd)
        push_neg at hfit
        omega
      · intro herr
        exfalso
        apply herr
        unfold addPayload
        rw [if_pos]
        push_neg at hfit
        omega

theorem AddToBuffer_MaxSize (ctx : USB_DATA_CONTEXT) (fd : List Char) (env : OP_ENV) :
    (AddToBuffer ctx (some fd) env).2.DataBuffer.MaxSize = ctx.DataBuffer.MaxSize := by
  unfold AddToBuffer
  simp only []
  split
  · by_cases hf : (UsbDataFlush ctx true env).1 = EFI_STATUS.EFI_SUCCESS
    · rw [if_neg (by simp [hf])]
      rw [addPayload_MaxSize, addTimestamp_MaxSize, UsbDataFlush_MaxSize]
    · rw [if_pos (by simp [hf])]
      exact UsbDataFlush_MaxSize ctx true env
  · rw [if_neg (by simp)]
    dsimp only
    rw [addPayload_MaxSize, addTimestamp_MaxSize]

/-- The buffer-size invariant: the capacity is the 64 KiB set at
initialization and the cursor never exceeds it. -/
def BufferInv (ctx : USB_DATA_CONTEXT) : Prop :=
  ctx.DataBuffer.MaxSize = USB_DATA_BUFFER_SIZE ∧
  ctx.DataBuffer.Data.length ≤ ctx.DataBuffer.MaxSize

theorem setStatus_DataBuffer (ctx : USB_DATA_CONTEXT) (st : USB_DATA_STATUS) :
    (setStatus ctx st).DataBuffer = ctx.DataBuffer := rfl

theorem UsbDataFlush_BufferInv (ctx : USB_DATA_CONTEXT) (force : Bool) (env : OP_ENV)
    (h : BufferInv ctx) : BufferInv (UsbDataFlush ctx force env).2 := by
  constructor
  · rw [UsbDataFlush_MaxSize]; exact h.1
  · rw [UsbDataFlush_MaxSize]
    rcases UsbDataFlush_Data_cases ctx force env with hc | hc <;> rw [hc]
    · exact h.2
    · simp

theorem UsbDataWrite_BufferInv (ctx : USB_DATA_CONTEXT) (dataOpt : Option (List Char))
    (dataSize : Nat) (ts : Bool) (env : OP_ENV) (h : BufferInv ctx) :
    BufferInv (UsbDataWrite ctx dataOpt dataSize ts env).2 := by
  unfold UsbDataWrite
  rcases dataOpt with _ | d
  · exact h
  · simp only []
    split
    · exact h
    · split
      · exact h
      · dsimp only
        split
        · -- binary path: the buffer is never touched
          rename_i hbin
          split <;>
            simp only [setStatus_DataBuffer, BufferInv, WriteToFile_DataBuffer] <;> exact h
        · have hfd := formatData_length_le
            (setStatus ctx .USB_DATA_STATUS_WRITING).DataFormat d dataSize
          have hstr := asciiStr_length_le
            (formatData (setStatus ctx .USB_DATA_STATUS_WRITING).DataFormat d dataSize).1
          have hmain := AddToBuffer_main (setStatus ctx .USB_DATA_STATUS_WRITING)
            (formatData (setStatus ctx .USB_DATA_STATUS_WRITING).DataFormat d dataSize).1 env
            (by rw [setStatus_DataBuffer, h.1]; decide) h.2 (by omega)
          have hms := AddToBuffer_MaxSize (setStatus ctx .USB_DATA_STATUS_WRITING)
            (formatData (setStatus ctx .USB_DATA_STATUS_WRITING).DataFormat d dataSize).1 env
          constructor
          · rw [setStatus_DataBuffer, hms]; exact h.1
          · rw [setStatus_DataBuffer, hms]; exact hmain.1

theorem stepOp_BufferInv (ctx : USB_DATA_CONTEXT) (op : UsbOp) (h : BufferInv ctx) :
    BufferInv (stepOp ctx op) := by
  cases op with
  | write dataOpt dataSize ts env => exact UsbDataWrite_BufferInv ctx dataOpt dataSize ts env h
  | flush force env => exact UsbDataFlush_BufferInv ctx force env h

theorem runOps_BufferInv (ops : List UsbOp) (ctx : USB_DATA_CONTEXT) (h : BufferInv ctx) :
    BufferInv (runOps ctx ops) := by
  induction ops generalizing ctx with
  | nil => exact h
  | cons op rest ih => exact ih (stepOp ctx op) (stepOp_BufferInv ctx op h)

theorem OpenLogFile_DataBuffer (ctx : USB_DATA_CONTEXT) (createNew : Bool) (env : INIT_ENV) :
    (OpenLogFile ctx createNew env).2.DataBuffer = ctx.DataBuffer := by
  unfold OpenLogFile
  split
  · rfl
  · simp only []
    split <;> first | rfl | (split <;> rfl)

theorem InitUsbDataTransfer_BufferInv (format : USB_DATA_FORMAT) (autoFlush : Bool)
    (env : INIT_ENV) : BufferInv (InitUsbDataTransfer format autoFlush env).2 := by
  unfold InitUsbDataTransfer
  simp only []
  split
  · exact ⟨rfl, by simp [setStatus]⟩
  · split
    · constructor
      · rw [setStatus_DataBuffer, OpenLogFile_DataBuffer]; rfl
      · rw [setStatus_DataBuffer, OpenLogFile_DataBuffer]; simp [setStatus]
    · constructor
      · rw [OpenLogFile_DataBuffer]; rfl
      · rw [OpenLogFile_DataBuffer]; simp [setStatus]

/-- C1: for every sequence of UsbDataWrite/UsbDataFlush calls on an
initialized context (any outcome of InitUsbDataTransfer), the buffer
cursor CurrentSize never exceeds MaxSize. -/
theorem c1_currentSize_le_maxSize (format : USB_DATA_FORMAT) (autoFlush : Bool)
    (envInit : INIT_ENV) (ops : List UsbOp) :
    (runOps (InitUsbDataTransfer format autoFlush envInit).2 ops).DataBuffer.CurrentSize ≤
      (runOps (InitUsbDataTransfer format autoFlush envInit).2 ops).DataBuffer.MaxSize :=
  (runOps_BufferInv ops _ (InitUsbDataTransfer_BufferInv format autoFlush envInit)).2

/-- C3: whenever AddToBuffer returns an error for a formatted record (all
records formatted by this module fit a scratch buffer of at most 1024
bytes, so their string length is at most 1023) on a context whose buffer
satisfies the size invariant, the buffer content and CurrentSize are
unchanged: the only error paths are the parameter check and a failed
forced flush, both of which leave the buffer bytes untouched. -/
theorem c3_failed_append_leaves_buffer_unchanged (ctx : USB_DATA_CONTEXT) (fd : List Char)
    (env : OP_ENV) (hbig : 1055 ≤ ctx.DataBuffer.MaxSize)
    (hlen : ctx.DataBuffer.Data.length ≤ ctx.DataBuffer.MaxSize)
    (hs : asciiStrLen fd ≤ 1023)
    (herr : (AddToBuffer ctx (some fd) env).1 ≠ .EFI_SUCCESS) :
    (AddToBuffer ctx (some fd) env).2.DataBuffer.Data = ctx.DataBuffer.Data ∧
    (AddToBuffer ctx (some fd) env).2.DataBuffer.CurrentSize = ctx.DataBuffer.CurrentSize := by
  have h := (AddToBuffer_main ctx fd env hbig hlen hs).2 herr
  exact ⟨h, by unfold USB_DATA_BUFFER.CurrentSize; rw [h]⟩

/-- Context for the C3 witness: a nearly full 1055-byte buffer with no
open log file, so the forced flush inside AddToBuffer fails. -/
def ctxC3 : USB_DATA_CONTEXT :=
  { FileSystem := none, LogFile := none,
    DataBuffer := { Data := List.replicate 1054 'x', MaxSize := 1055,
                    LastWrite := ⟨0, 0, 0, 0, 0, 0⟩ },
    Statistics := ⟨0, 0, 0, 0, 0, .USB_DATA_STATUS_READY⟩,
    DataFormat := .USB_DATA_FORMAT_TEXT, AutoFlush := true, FileName := [] }

/-- Environment used by several concrete witnesses: all external calls
succeed. -/
def envOk : OP_ENV := ⟨⟨2025, 1, 2, 3, 4, 5⟩, ⟨true, true, true, 7⟩, ⟨true, true, true, 8⟩⟩

set_option maxRecDepth 10000 in
theorem c3_witness :
    (1055 ≤ ctxC3.DataBuffer.MaxSize ∧
      ctxC3.DataBuffer.Data.length ≤ ctxC3.DataBuffer.MaxSize ∧
      asciiStrLen ['x'] ≤ 1023 ∧
      (AddToBuffer ctxC3 (some ['x']) envOk).1 ≠ .EFI_SUCCESS) ∧
    ((AddToBuffer ctxC3 (some ['x']) envOk).2.DataBuffer.Data = ctxC3.DataBuffer.Data ∧
      (AddToBuffer ctxC3 (some ['x']) envOk).2.DataBuffer.CurrentSize =
        ctxC3.DataBuffer.CurrentSize) :=
  ⟨⟨by decide, by simp [ctxC3], by decide, by decide⟩,
    c3_failed_append_leaves_buffer_unchanged ctxC3 ['x'] envOk
      (by decide) (by simp [ctxC3]) (by decide) (by decide)⟩

theorem WriteToFile_success (ctx : USB_DATA_CONTEXT) (f : EFI_FILE) (d : List Char) (n : Nat)
    (fe : FILE_ENV) (hf : ctx.LogFile = some f) (hn : n ≠ 0)
    (h1 : fe.setPosOk = true) (h2 : fe.writeOk = true) :
    WriteToFile ctx (some d) n fe =
      (.EFI_SUCCESS,
        { ctx with
            LogFile := some { Writes := f.Writes ++ [d], FlushRequests := f.FlushRequests + 1 },
            Statistics :=
              { ctx.Statistics with
                  TotalBytesWritten := ctx.Statistics.TotalBytesWritten + n,
                  LastWriteTime := fe.timeCounter } }) := by
  unfold WriteToFile
  rw [hf]
  simp only []
  rw [if_neg hn, if_neg (by simp [h1]), if_neg (by simp [h2])]

theorem WriteToFile_writeFail (ctx : USB_DATA_CONTEXT) (f : EFI_FILE) (d : List Char) (n : Nat)
    (fe : FILE_ENV) (hf : ctx.LogFile = some f) (hn : n ≠ 0)
    (h1 : fe.setPosOk = true) (h2 : fe.writeOk = false) :
    WriteToFile ctx (some d) n fe =
      (.EFI_DEVICE_ERROR,
        { ctx with Statistics :=
            { ctx.Statistics with WriteErrors := ctx.Statistics.WriteErrors + 1 } }) := by
  unfold WriteToFile
  rw [hf]
  simp only []
  rw [if_neg hn, if_neg (by simp [h1]), if_pos h2]

theorem WriteToFile_setPosFail (ctx : USB_DATA_CONTEXT) (f : EFI_FILE) (d : List Char) (n : Nat)
    (fe : FILE_ENV) (hf : ctx.LogFile = some f) (hn : n ≠ 0) (h1 : fe.setPosOk = false) :
    WriteToFile ctx (some d) n fe = (.EFI_DEVICE_ERROR, ctx) := by
  unfold WriteToFile
  rw [hf]
  simp only []
  rw [if_neg hn, if_pos h1]

/-- C4 (amended): for every WriteToFile call with a valid open file and a
non-empty span, the durability flush request is issued exactly when the
write itself succeeded: on success TotalBytesWritten and LastWriteTime
are updated and one flush request is issued; on write failure WriteErrors
is incremented and the function returns before any flush request (the
file handle state is unchanged); on a SetPosition failure nothing
changes. -/
theorem c4_flush_only_after_successful_write (ctx : USB_DATA_CONTEXT) (f : EFI_FILE)
    (d : List Char) (n : Nat) (fe : FILE_ENV) (hf : ctx.LogFile = some f) (hn : n ≠ 0) :
    (fe.setPosOk = true → fe.writeOk = true →
      WriteToFile ctx (some d) n fe =
        (.EFI_SUCCESS,
          { ctx with
              LogFile := some { Writes := f.Writes ++ [d], FlushRequests := f.FlushRequests + 1 },
              Statistics :=
                { ctx.Statistics with
                    TotalBytesWritten := ctx.Statistics.TotalBytesWritten + n,
                    LastWriteTime := fe.timeCounter } })) ∧
    (fe.setPosOk = true → fe.writeOk = false →
      WriteToFile ctx (some d) n fe =
        (.EFI_DEVICE_ERROR,
          { ctx with Statistics :=
              { ctx.Statistics with WriteErrors := ctx.Statistics.WriteErrors + 1 } })) ∧
    (fe.setPosOk = false → WriteToFile ctx (some d) n fe = (.EFI_DEVICE_ERROR, ctx)) :=
  ⟨fun h1 h2 => WriteToFile_success ctx f d n fe hf hn h1 h2,
   fun h1 h2 => WriteToFile_writeFail ctx f d n fe hf hn h1 h2,
   fun h1 => WriteToFile_setPosFail ctx f d n fe hf hn h1⟩

/-- File handle used by the C4 witness and counterexample. -/
def c4file : EFI_FILE := ⟨[], 0⟩

/-- All-good file environment for the C4 witness. -/
def c4fe : FILE_ENV := ⟨true, true, true, 5⟩

/-- Ready context with an empty buffer and an open, empty log file, used
by the C4 theorems. -/
def ctxC4w : USB_DATA_CONTEXT :=
  { FileSystem := none, LogFile := some c4file,
    DataBuffer := { Data := [], MaxSize := USB_DATA_BUFFER_SIZE, LastWrite := ⟨0, 0, 0, 0, 0, 0⟩ },
    Statistics := ⟨0, 0, 0, 0, 0, .USB_DATA_STATUS_READY⟩,
    DataFormat := .USB_DATA_FORMAT_JSON, AutoFlush := true, FileName := [] }

theorem c4_witness :
    (ctxC4w.LogFile = some c4file ∧ (2 : Nat) ≠ 0) ∧
    WriteToFile ctxC4w (some ['h', 'i']) 2 c4fe =
      (.EFI_SUCCESS,
        { ctxC4w with
            LogFile := some { Writes := c4file.Writes ++ [['h', 'i']],
                              FlushRequests := c4file.FlushRequests + 1 },
            Statistics :=
              { ctxC4w.Statistics with
                  TotalBytesWritten := ctxC4w.Statistics.TotalBytesWritten + 2,
                  LastWriteTime := c4fe.timeCounter } }) :=
  ⟨⟨rfl, by decide⟩,
    (c4_flush_only_after_successful_write ctxC4w c4file ['h', 'i'] 2 c4fe rfl (by decide)).1
      rfl rfl⟩

/-- C4 counterexample: with a valid open file and a failing Write, the
write failure is counted but no durability flush request is issued (the
file handle still records zero flush requests), refuting the claim that a
flush request is issued regardless of the write outcome. -/
theorem c4_counterexample :
    (WriteToFile ctxC4w (some ['a']) 1 ⟨true, false, true, 5⟩).1 ≠ .EFI_SUCCESS ∧
    (WriteToFile ctxC4w (some ['a']) 1 ⟨true, false, true, 5⟩).2.Statistics.WriteErrors =
      ctxC4w.Statistics.WriteErrors + 1 ∧
    (WriteToFile ctxC4w (some ['a']) 1 ⟨true, false, true, 5⟩).2.LogFile =
      some { Writes := [], FlushRequests := 0 } := by decide

theorem UsbDataFlush_empty (ctx : USB_DATA_CONTEXT) (force : Bool) (env : OP_ENV)
    (h : ctx.DataBuffer.Data = []) : UsbDataFlush ctx force env = (.EFI_SUCCESS, ctx) := by
  unfold UsbDataFlush
  rw [if_pos (by rw [h]; rfl)]

/-- C7 (amended): when the first forced flush returns success (so the
buffer is empty afterwards), a second forced flush with no write in
between is a no-op: it returns success and leaves the whole context —
buffer and every Statistics field — unchanged.  (When the first flush
fails, the buffer stays non-empty and the second call retries the write,
so it is not a no-op; see the counterexample.) -/
theorem c7_second_forced_flush_noop (ctx : USB_DATA_CONTEXT) (env env2 : OP_ENV)
    (h : (UsbDataFlush ctx true env).1 = .EFI_SUCCESS) :
    UsbDataFlush (UsbDataFlush ctx true env).2 true env2 =
      (.EFI_SUCCESS, (UsbDataFlush ctx true env).2) :=
  UsbDataFlush_empty (UsbDataFlush ctx true env).2 true env2
    (UsbDataFlush_force_success_Data ctx env h)

/-- Ready context with pending buffered text and an open log file, used
by the C7 counterexample. -/
def ctxC7 : USB_DATA_CONTEXT :=
  { FileSystem := none, LogFile := some ⟨[], 0⟩,
    DataBuffer := { Data := ("abc").toList, MaxSize := USB_DATA_BUFFER_SIZE,
                    LastWrite := ⟨0, 0, 0, 0, 0, 0⟩ },
    Statistics := ⟨0, 0, 0, 0, 0, .USB_DATA_STATUS_READY⟩,
    DataFormat := .USB_DATA_FORMAT_JSON, AutoFlush := true, FileName := [] }

/-- Environment whose file Write calls fail. -/
def envBadWrite : OP_ENV := ⟨⟨2025, 1, 2, 3, 4, 5⟩, ⟨true, false, true, 5⟩, ⟨true, false, true, 6⟩⟩

/-- C7 counterexample: when the first forced flush fails (write error),
the second forced flush is not a no-op — it returns an error, not
success, and changes Statistics again (WriteErrors increments a second
time), refuting the unconditional idempotence claim. -/
theorem c7_counterexample :
    (UsbDataFlush (UsbDataFlush ctxC7 true envBadWrite).2 true envBadWrite).1 ≠ .EFI_SUCCESS ∧
    (UsbDataFlush (UsbDataFlush ctxC7 true envBadWrite).2 true envBadWrite).2.Statistics ≠
      (UsbDataFlush ctxC7 true envBadWrite).2.Statistics := by decide

/-- Ready context with an empty buffer, used by the C7 witness. -/
def ctxC7w : USB_DATA_CONTEXT :=
  { FileSystem := none, LogFile := some ⟨[], 0⟩,
    DataBuffer := { Data := [], MaxSize := USB_DATA_BUFFER_SIZE, LastWrite := ⟨0, 0, 0, 0, 0, 0⟩ },
    Statistics := ⟨0, 0, 0, 0, 0, .USB_DATA_STATUS_READY⟩,
    DataFormat := .USB_DATA_FORMAT_JSON, AutoFlush := true, FileName := [] }

theorem c7_witness :
    ((UsbDataFlush ctxC7w true envOk).1 = .EFI_SUCCESS) ∧
    UsbDataFlush (UsbDataFlush ctxC7w true envOk).2 true envOk =
      (.EFI_SUCCESS, (UsbDataFlush ctxC7w true envOk).2) :=
  ⟨by decide, c7_second_forced_flush_noop ctxC7w envOk envOk (by decide)⟩

/-- C8: on a context whose Status is not READY, UsbDataWrite with a valid
non-empty span returns EFI_NOT_READY and returns the context completely
unchanged — neither the buffer nor any statistics counter is mutated. -/
theorem c8_write_not_ready (ctx : USB_DATA_CONTEXT) (d : List Char) (n : Nat) (ts : Bool)
    (env : OP_ENV) (hn : n ≠ 0) (hst : ctx.Statistics.Status ≠ .USB_DATA_STATUS_READY) :
    UsbDataWrite ctx (some d) n ts env = (.EFI_NOT_READY, ctx) := by
  unfold UsbDataWrite
  simp only []
  rw [if_neg hn, if_pos hst]

/-- Context in the ERROR state with pending data, used by the C8
witness. -/
def ctxC8 : USB_DATA_CONTEXT :=
  { FileSystem := none, LogFile := some ⟨[], 0⟩,
    DataBuffer := { Data := ("pending").toList, MaxSize := USB_DATA_BUFFER_SIZE,
                    LastWrite := ⟨0, 0, 0, 0, 0, 0⟩ },
    Statistics := ⟨9, 1, 2, 3, 4, .USB_DATA_STATUS_ERROR⟩,
    DataFormat := .USB_DATA_FORMAT_JSON, AutoFlush := true, FileName := [] }

theorem c8_witness :
    ((3 : Nat) ≠ 0 ∧ ctxC8.Statistics.Status ≠ .USB_DATA_STATUS_READY) ∧
    UsbDataWrite ctxC8 (some (("abc").toList)) 3 true envOk = (.EFI_NOT_READY, ctxC8) :=
  ⟨⟨by decide, by decide⟩,
    c8_write_not_ready ctxC8 (("abc").toList) 3 true envOk (by decide) (by decide)⟩

/-- C10: the Timestamp parameter of UsbDataWrite has no effect — it is
never read in the body, so two calls that differ only in it return the
same status and produce the identical post-state (buffer, statistics and
file bytes); the timestamp prefix is decided inside AddToBuffer solely by
whether the buffer is empty. -/
theorem c10_timestamp_has_no_effect (ctx : USB_DATA_CONTEXT) (dataOpt : Option (List Char))
    (dataSize : Nat) (env : OP_ENV) :
    UsbDataWrite ctx dataOpt dataSize true env = UsbDataWrite ctx dataOpt dataSize false env := rfl

theorem formatData_binary_length_ne_zero (d : List Char) (n : Nat) :
    (formatData .USB_DATA_FORMAT_BINARY d n).2 ≠ 0 := by
  simp only [formatData, asciiSPrint]
  rw [List.length_take]
  simp [List.length_append]

/-- C6 (amended): a UsbDataWrite on a READY, binary-format context never
touches the line buffer; the length header and then the first DataSize
raw payload bytes are appended directly to the file in that order (with
one durability flush request each).  Contrary to the claim, no flush of
pending buffered text happens first: the buffer — including any pending
text — is byte-identical afterwards, so pending text does not precede
the binary record in the file. -/
theorem c6_binary_write_direct (ctx : USB_DATA_CONTEXT) (f : EFI_FILE) (d : List Char) (n : Nat)
    (ts : Bool) (env : OP_ENV)
    (hf : ctx.LogFile = some f) (hst : ctx.Statistics.Status = .USB_DATA_STATUS_READY)
    (hn : n ≠ 0) (hfmt : ctx.DataFormat = .USB_DATA_FORMAT_BINARY)
    (h1 : env.fe1.setPosOk = true) (h2 : env.fe1.writeOk = true)
    (h3 : env.fe2.setPosOk = true) (h4 : env.fe2.writeOk = true) :
    (UsbDataWrite ctx (some d) n ts env).1 = .EFI_SUCCESS ∧
    (UsbDataWrite ctx (some d) n ts env).2.DataBuffer = ctx.DataBuffer ∧
    (UsbDataWrite ctx (some d) n ts env).2.LogFile =
      some { Writes := f.Writes ++ [(formatData .USB_DATA_FORMAT_BINARY d n).1, d.take n],
             FlushRequests := f.FlushRequests + 2 } := by
  unfold UsbDataWrite
  simp only []
  rw [if_neg hn, if_neg (by simp [hst])]
  dsimp only
  rw [if_pos (show (setStatus ctx .USB_DATA_STATUS_WRITING).DataFormat =
        .USB_DATA_FORMAT_BINARY from hfmt)]
  have hfmt2 : (setStatus ctx .USB_DATA_STATUS_WRITING).DataFormat =
      .USB_DATA_FORMAT_BINARY := hfmt
  rw [hfmt2]
  rw [WriteToFile_success (setStatus ctx .USB_DATA_STATUS_WRITING) f
    (formatData .USB_DATA_FORMAT_BINARY d n).1
    (formatData .USB_DATA_FORMAT_BINARY d n).2 env.fe1 hf
    (formatData_binary_length_ne_zero d n) h1 h2]
  simp only []
  split
  · rw [WriteToFile_success _ _ (d.take n) n env.fe2 rfl hn h3 h4]
    refine ⟨rfl, ?_, ?_⟩
    · rfl
    · simp [setStatus, Nat.add_assoc]
  · rename_i hcond
    exact absurd ⟨by trivial, Nat.pos_of_ne_zero hn⟩ hcond

/-- File handle used by the C6 theorems. -/
def c6file : EFI_FILE := ⟨[], 0⟩

/-- Ready, binary-format context with pending buffered text, used by the
C6 theorems. -/
def ctxC6 : USB_DATA_CONTEXT :=
  { FileSystem := none, LogFile := some c6file,
    DataBuffer := { Data := ("OLD").toList, MaxSize := USB_DATA_BUFFER_SIZE,
                    LastWrite := ⟨0, 0, 0, 0, 0, 0⟩ },
    Statistics := ⟨0, 0, 0, 0, 0, .USB_DATA_STATUS_READY⟩,
    DataFormat := .USB_DATA_FORMAT_BINARY, AutoFlush := true, FileName := [] }

/-- C6 counterexample: a binary write on a context with pending buffered
text writes only the header and the payload to the file — the pending
text stays in the buffer, so it does not precede the binary record in the
output file, refuting the claim that pending buffered text is flushed
first. -/
theorem c6_counterexample :
    ctxC6.DataBuffer.Data ≠ [] ∧
    (UsbDataWrite ctxC6 (some (("PAY").toList)) 3 false envOk).2.DataBuffer.Data =
      ("OLD").toList ∧
    (UsbDataWrite ctxC6 (some (("PAY").toList)) 3 false envOk).2.LogFile =
      some { Writes := [("BINARY_DATA_SIZE:3\n").toList, ("PAY").toList],
             FlushRequests := 2 } := by decide

theorem c6_witness :
    (ctxC6.LogFile = some c6file ∧ ctxC6.Statistics.Status = .USB_DATA_STATUS_READY ∧
      (3 : Nat) ≠ 0 ∧ ctxC6.DataFormat = .USB_DATA_FORMAT_BINARY) ∧
    ((UsbDataWrite ctxC6 (some (("PAY").toList)) 3 true envOk).1 = .EFI_SUCCESS ∧
      (UsbDataWrite ctxC6 (some (("PAY").toList)) 3 true envOk).2.DataBuffer =
        ctxC6.DataBuffer ∧
      (UsbDataWrite ctxC6 (some (("PAY").toList)) 3 true envOk).2.LogFile =
        some { Writes := c6file.Writes ++
                 [(formatData .USB_DATA_FORMAT_BINARY (("PAY").toList) 3).1,
                   (("PAY").toList).take 3],
               FlushRequests := c6file.FlushRequests + 2 }) :=
  ⟨⟨rfl, rfl, by decide, rfl⟩,
    c6_binary_write_direct ctxC6 c6file (("PAY").toList) 3 true envOk rfl rfl (by decide)
      rfl rfl rfl rfl rfl⟩

/-- Boot environment with one removable, present block device exposing a
simple file system, and all external open/volume calls succeeding. -/
def initEnvGood : INIT_ENV := ⟨true, [⟨true, true, true, true⟩], true, true, ⟨2025, 1, 2, 3, 4, 5⟩⟩

/-- C2: in an environment where a suitable removable, present device with
a simple-file-system view exists and every external file operation
succeeds, DetectUsbStorage succeeds as the claim expects — but
InitUsbDataTransfer still cannot return success, open a file or reach
READY, because DetectUsbStorage stores nothing in the context and
OpenLogFile dereferences the never-assigned NULL Context->FileSystem, so
the initialization ends in ERROR with no open file: the claim describes
the evident intent (and the header documentation), the code drops the
detected device on the floor. -/
theorem c2_detect_succeeds_but_init_cannot_reach_ready :
    DetectUsbStorage initEnvGood = .EFI_SUCCESS ∧
    (InitUsbDataTransfer .USB_DATA_FORMAT_JSON true initEnvGood).1 ≠ .EFI_SUCCESS ∧
    (InitUsbDataTransfer .USB_DATA_FORMAT_JSON true initEnvGood).2.Statistics.Status =
      .USB_DATA_STATUS_ERROR ∧
    (InitUsbDataTransfer .USB_DATA_FORMAT_JSON true initEnvGood).2.LogFile = none := by decide

/-- Ready, text-format context used by the C5 theorem. -/
def ctxC5 : USB_DATA_CONTEXT :=
  { FileSystem := none, LogFile := some ⟨[], 0⟩,
    DataBuffer := { Data := [], MaxSize := USB_DATA_BUFFER_SIZE, LastWrite := ⟨0, 0, 0, 0, 0, 0⟩ },
    Statistics := ⟨0, 0, 0, 0, 0, .USB_DATA_STATUS_READY⟩,
    DataFormat := .USB_DATA_FORMAT_TEXT, AutoFlush := true, FileName := [] }

/-- A rendering longer than the 1 KiB scratch buffer. -/
def c5rendered : List Char := List.replicate 1040 'a'

set_option maxRecDepth 10000 in
/-- C5: a UsbDataPrintf whose rendering (1040 characters) overflows the
1024-byte scratch buffer does NOT return a size error: AsciiVSPrint
returns the number of characters actually stored (at most 1023), so the
overflow check against 1024 can never fire; the silently truncated text
is forwarded to UsbDataWrite, the call returns success and the buffer
changes — refuting the claim that overflow is rejected and truncation
never forwarded. -/
theorem c5_overflowing_render_not_rejected :
    1024 ≤ c5rendered.length ∧
    (UsbDataPrintf ctxC5 (some c5rendered) envOk).1 = .EFI_SUCCESS ∧
    (UsbDataPrintf ctxC5 (some c5rendered) envOk).1 ≠ .EFI_BUFFER_TOO_SMALL ∧
    (UsbDataPrintf ctxC5 (some c5rendered) envOk).2.DataBuffer.Data ≠ ctxC5.DataBuffer.Data := by
  decide


theorem jsonUnescape_escapeJson (s : List Char) : jsonUnescape (escapeJson s) = some s := by
  induction s with
  | nil => rfl
  | cons c rest ih =>
    by_cases h1 : c = '"'
    · subst h1; simp [escapeJson, jsonUnescape, ih]
    · by_cases h2 : c = '\\'
      · subst h2; simp [escapeJson, jsonUnescape, ih]
      · by_cases h3 : c = '\n'
        · subst h3; simp [escapeJson, jsonUnescape, ih]
        · by_cases h4 : c = '\r'
          · subst h4; simp [escapeJson, jsonUnescape, ih]
          · by_cases h5 : c = '\t'
            · subst h5; simp [escapeJson, jsonUnescape, ih]
            · have he : escapeJson (c :: rest) = c :: escapeJson rest := by
                simp [escapeJson, h1, h2, h3, h4, h5]
              rw [he, jsonUnescape.eq_def]
              simp only []
              rw [if_neg h2, ih]

theorem stripLit_append (p s : List Char) : stripLit p (p ++ s) = some s := by
  induction p with
  | nil => rfl
  | cons c rest ih => simp [stripLit, ih]

theorem scanBody_escapeJson (msg rest : List Char) :
    scanBody (escapeJson msg ++ '"' :: rest) = some (escapeJson msg, rest) := by
  induction msg with
  | nil =>
    simp only [escapeJson, List.nil_append]
    rw [scanBody.eq_def]
    simp
  | cons c ms ih =>
    by_cases h1 : c = '"'
    · subst h1; simp [escapeJson, scanBody, ih]
    · by_cases h2 : c = '\\'
      · subst h2; simp [escapeJson, scanBody, ih]
      · by_cases h3 : c = '\n'
        · subst h3; simp [escapeJson, scanBody, ih]
        · by_cases h4 : c = '\r'
          · subst h4; simp [escapeJson, scanBody, ih]
          · by_cases h5 : c = '\t'
            · subst h5; simp [escapeJson, scanBody, ih]
            · have he : escapeJson (c :: ms) = c :: escapeJson ms := by
                simp [escapeJson, h1, h2, h3, h4, h5]
              rw [he, List.cons_append, scanBody.eq_def]
              simp only []
              rw [if_neg h1, if_neg h2, ih]

theorem digitChar_spec (d : Nat) (h : d < 10) :
    (digitChar d).isDigit = true ∧ 32 ≤ (digitChar d).toNat := by
  interval_cases d <;> exact ⟨by decide, by decide⟩

theorem natDecAux_spec (fuel : Nat) : ∀ n acc, n < fuel →
    ∃ ds, natDecAux fuel n acc = ds ++ acc ∧ ds ≠ [] ∧
      ∀ c ∈ ds, c.isDigit = true ∧ 32 ≤ c.toNat := by
  induction fuel with
  | zero => intro n acc h; omega
  | succ fuel ih =>
    intro n acc h
    rw [natDecAux]
    by_cases h10 : n < 10
    · rw [if_pos h10]
      exact ⟨[digitChar n], rfl, by simp,
        by intro c hc; simp at hc; subst hc; exact digitChar_spec n h10⟩
    · rw [if_neg h10]
      have hlt : n / 10 < fuel := by
        have := Nat.div_lt_self (by omega : 0 < n) (by omega : 1 < 10)
        omega
      obtain ⟨ds, heq, hne, hdig⟩ := ih (n / 10) (digitChar (n % 10) :: acc) hlt
      refine ⟨ds ++ [digitChar (n % 10)], by simp [heq], by simp, ?_⟩
      intro c hc
      rcases List.mem_append.1 hc with hc | hc
      · exact hdig c hc
      · simp at hc; subst hc
        exact digitChar_spec (n % 10) (Nat.mod_lt n (by omega))

theorem natDec_spec (n : Nat) :
    natDec n ≠ [] ∧ ∀ c ∈ natDec n, c.isDigit = true ∧ 32 ≤ c.toNat := by
  obtain ⟨ds, heq, hne, hdig⟩ := natDecAux_spec (n + 1) n [] (by omega)
  unfold natDec
  rw [heq, List.append_nil]
  exact ⟨hne, hdig⟩

theorem takeWhile_digits_comma (l1 rest : List Char) (h1 : ∀ c ∈ l1, c.isDigit = true) :
    (l1 ++ ',' :: rest).takeWhile Char.isDigit = l1 ∧
    (l1 ++ ',' :: rest).dropWhile Char.isDigit = ',' :: rest := by
  induction l1 with
  | nil => simp [List.takeWhile, List.dropWhile]
  | cons c cs ih =>
    have hc : c.isDigit = true := h1 c (by simp)
    have hrest : ∀ x ∈ cs, x.isDigit = true := fun x hx => h1 x (by simp [hx])
    obtain ⟨iht, ihd⟩ := ih hrest
    constructor
    · simp [List.takeWhile_cons, hc, iht]
    · simp [List.dropWhile_cons, hc, ihd]

theorem escapeJson_printable (msg : List Char)
    (hctl : ∀ c ∈ msg, 32 ≤ c.toNat ∨ c = '\n' ∨ c = '\r' ∨ c = '\t') :
    ∀ x ∈ escapeJson msg, 32 ≤ x.toNat := by
  induction msg with
  | nil => simp [escapeJson]
  | cons c ms ih =>
    have hc := hctl c (by simp)
    have hms : ∀ x ∈ ms, 32 ≤ x.toNat ∨ x = '\n' ∨ x = '\r' ∨ x = '\t' :=
      fun x hx => hctl x (by simp [hx])
    intro x hx
    rw [escapeJson] at hx
    rcases List.mem_append.1 hx with hx | hx
    · -- x comes from the escape segment of c
      by_cases h1 : c = '"'
      · subst h1
        rw [if_pos rfl] at hx
        exact (by decide : ∀ y ∈ ['\\', '"'], 32 ≤ y.toNat) x hx
      · by_cases h2 : c = '\\'
        · subst h2
          rw [if_neg (by decide), if_pos rfl] at hx
          exact (by decide : ∀ y ∈ ['\\', '\\'], 32 ≤ y.toNat) x hx
        · by_cases h3 : c = '\n'
          · subst h3
            rw [if_neg (by decide), if_neg (by decide), if_pos rfl] at hx
            exact (by decide : ∀ y ∈ ['\\', 'n'], 32 ≤ y.toNat) x hx
          · by_cases h4 : c = '\r'
            · subst h4
              rw [if_neg (by decide), if_neg (by decide), if_neg (by decide), if_pos rfl] at hx
              exact (by decide : ∀ y ∈ ['\\', 'r'], 32 ≤ y.toNat) x hx
            · by_cases h5 : c = '\t'
              · subst h5
                rw [if_neg (by decide), if_neg (by decide), if_neg (by decide),
                  if_neg (by decide), if_pos rfl] at hx
                exact (by decide : ∀ y ∈ ['\\', 't'], 32 ≤ y.toNat) x hx
              · rw [if_neg h1, if_neg h2, if_neg h3, if_neg h4, if_neg h5] at hx
                simp at hx
                subst hx
                rcases hc with hc | hc | hc | hc <;> first | exact hc | (exfalso; simp_all)
    · exact ih hms x hx

theorem validBody_escapeJson (msg : List Char)
    (hctl : ∀ c ∈ msg, 32 ≤ c.toNat ∨ c = '\n' ∨ c = '\r' ∨ c = '\t') :
    validBody (escapeJson msg) = true := by
  induction msg with
  | nil => rfl
  | cons c ms ih =>
    have hc := hctl c (by simp)
    have hms : ∀ x ∈ ms, 32 ≤ x.toNat ∨ x = '\n' ∨ x = '\r' ∨ x = '\t' :=
      fun x hx => hctl x (by simp [hx])
    have ihv := ih hms
    by_cases h1 : c = '"'
    · subst h1; simp [escapeJson, validBody, ihv]
    · by_cases h2 : c = '\\'
      · subst h2; simp [escapeJson, validBody, ihv]
      · by_cases h3 : c = '\n'
        · subst h3; simp [escapeJson, validBody, ihv]
        · by_cases h4 : c = '\r'
          · subst h4; simp [escapeJson, validBody, ihv]
          · by_cases h5 : c = '\t'
            · subst h5; simp [escapeJson, validBody, ihv]
            · have he : escapeJson (c :: ms) = c :: escapeJson ms := by
                simp [escapeJson, h1, h2, h3, h4, h5]
              have hge : 32 ≤ c.toNat := by
                rcases hc with hc | hc | hc | hc <;> first | exact hc | (exfalso; simp_all)
              rw [he, validBody.eq_def]
              simp only []
              rw [if_neg h2]
              simp [h1, hge, ihv]

theorem scanBody_validBody (esc : List Char) (rest : List Char) (hvb : validBody esc = true) :
    scanBody (esc ++ '"' :: rest) = some (esc, rest) := by
  induction esc using validBody.induct with
  | case1 => rw [List.nil_append, scanBody.eq_def]; simp
  | case2 =>
    rw [validBody.eq_def] at hvb
    simp at hvb
  | case3 e rest2 ih =>
    rw [validBody.eq_def] at hvb
    have h2 : validBody rest2 = true := by
      simp at hvb
      exact hvb.2
    rw [List.cons_append, List.cons_append, scanBody.eq_def]
    simp only [if_true, reduceIte]
    rw [ih h2]
    simp
  | case4 e rest2 hne ih =>
    rw [validBody.eq_def] at hvb
    simp [hne] at hvb
    rw [List.cons_append, scanBody.eq_def]
    simp only []
    rw [if_neg hvb.1.2]
    rw [if_neg hne]
    rw [ih hvb.2]

theorem stripLit_cons_append (c : Char) (p s : List Char) :
    stripLit (c :: p) (c :: (p ++ s)) = some s := by
  simp [stripLit, stripLit_append]

theorem parseJsonRecord_jsonRecordOf (lvl : Nat) (esc : List Char) (hasData : Bool)
    (hvb : validBody esc = true)
    (hfit : 23 + (natDec lvl).length + esc.length + (if hasData = true then 15 else 0) ≤ 511) :
    parseJsonRecord (jsonRecordOf lvl esc hasData) = some (natDec lvl, esc, hasData) := by
  obtain ⟨hne, hdigall⟩ := natDec_spec lvl
  have hdig : ∀ c ∈ natDec lvl, c.isDigit = true := fun c hc => (hdigall c hc).1
  have l1 : ((("\x7b\"level\":").toList : List Char)).length = 9 := by decide
  have l2 : (((",\"message\":\"").toList : List Char)).length = 12 := by decide
  have l3 : ((("\"\x7d").toList : List Char)).length = 2 := by decide
  have l4 : ((("\",\"hasData\":true\x7d").toList : List Char)).length = 17 := by decide
  cases hasData with
  | false =>
    norm_num at hfit
    unfold jsonRecordOf
    rw [if_neg Bool.false_ne_true]
    unfold asciiSPrint
    rw [List.take_of_length_le (by
      simp only [List.length_append, l1, l2, l3]
      omega)]
    unfold parseJsonRecord
    simp only [List.append_assoc]
    rw [stripLit_append]
    simp only []
    rw [show (((",\"message\":\"").toList : List Char)) =
        ',' :: (("\"message\":\"").toList) from rfl]
    rw [List.cons_append]
    obtain ⟨htw, hdw⟩ := takeWhile_digits_comma (natDec lvl)
      ((("\"message\":\"").toList : List Char) ++ (esc ++ ("\"\x7d").toList)) hdig
    rw [htw, hdw]
    rw [if_neg hne]
    rw [stripLit_cons_append]
    rw [show ((("\"\x7d").toList : List Char)) = '"' :: (("\x7d").toList) from rfl]
    simp only []
    rw [scanBody_validBody esc (("\x7d").toList) hvb]
    simp only [hvb]
    simp
  | true =>
    norm_num at hfit
    unfold jsonRecordOf
    rw [if_pos rfl]
    unfold asciiSPrint
    rw [List.take_of_length_le (by
      simp only [List.length_append, l1, l2, l4]
      omega)]
    unfold parseJsonRecord
    simp only [List.append_assoc]
    rw [stripLit_append]
    simp only []
    rw [show (((",\"message\":\"").toList : List Char)) =
        ',' :: (("\"message\":\"").toList) from rfl]
    rw [List.cons_append]
    obtain ⟨htw, hdw⟩ := takeWhile_digits_comma (natDec lvl)
      ((("\"message\":\"").toList : List Char) ++ (esc ++ ("\",\"hasData\":true\x7d").toList))
      hdig
    rw [htw, hdw]
    rw [if_neg hne]
    rw [stripLit_cons_append]
    rw [show ((("\",\"hasData\":true\x7d").toList : List Char)) =
        '"' :: ((",\"hasData\":true\x7d").toList) from rfl]
    simp only []
    rw [scanBody_validBody esc ((",\"hasData\":true\x7d").toList) hvb]
    simp only [hvb]
    simp

/-- C9 (amended): for every message string that contains at least one of
quote, backslash, newline, carriage return or tab, contains no control
characters other than newline, carriage return and tab, and whose escaped
record fits the 512-byte scratch buffer, the emitted structured-object
record parses as exactly one one-line JSON object whose message body is
the escaped string, standard JSON unescaping reproduces the original
message exactly, and every character of the record is printable (at least
0x20), so the record is a single line.  (Messages whose record overflows
the scratch buffer are truncated into a torn record, and control
characters below 0x20 other than the three above are emitted raw; see the
counterexample.) -/
theorem c9_roundtrip (lvl : Nat) (msg : List Char)
    (hmem : '"' ∈ msg ∨ '\\' ∈ msg ∨ '\n' ∈ msg ∨ '\r' ∈ msg ∨ '\t' ∈ msg)
    (hctl : ∀ c ∈ msg, 32 ≤ c.toNat ∨ c = '\n' ∨ c = '\r' ∨ c = '\t')
    (hfit : 23 + (natDec lvl).length + (escapeJson msg).length ≤ 511) :
    FormatJsonString true (some msg) = some (escapeJson msg) ∧
    parseJsonRecord (jsonRecordOf lvl (escapeJson msg) false) =
      some (natDec lvl, escapeJson msg, false) ∧
    jsonUnescape (escapeJson msg) = some msg ∧
    ∀ x ∈ jsonRecordOf lvl (escapeJson msg) false, 32 ≤ x.toNat := by
  obtain ⟨hne, hdigall⟩ := natDec_spec lvl
  refine ⟨rfl, ?_, jsonUnescape_escapeJson msg, ?_⟩
  · exact parseJsonRecord_jsonRecordOf lvl (escapeJson msg) false
      (validBody_escapeJson msg hctl) (by simpa using hfit)
  · intro x hx
    have l1 : ((("\x7b\"level\":").toList : List Char)).length = 9 := by decide
    have l2 : (((",\"message\":\"").toList : List Char)).length = 12 := by decide
    have l3 : ((("\"\x7d").toList : List Char)).length = 2 := by decide
    have hrec : jsonRecordOf lvl (escapeJson msg) false =
        ("\x7b\"level\":").toList ++ natDec lvl ++ (",\"message\":\"").toList ++
          escapeJson msg ++ ("\"\x7d").toList := by
      unfold jsonRecordOf asciiSPrint
      rw [if_neg Bool.false_ne_true]
      exact List.take_of_length_le (by
        simp only [List.length_append, l1, l2, l3]
        omega)
    rw [hrec] at hx
    have hx2 := hx
    rcases List.mem_append.1 hx2 with hx2 | hx2
    · rcases List.mem_append.1 hx2 with hx2 | hx2
      · rcases List.mem_append.1 hx2 with hx2 | hx2
        · rcases List.mem_append.1 hx2 with hx2 | hx2
          · exact (by decide : ∀ y ∈ (("\x7b\"level\":").toList : List Char), 32 ≤ y.toNat) x hx2
          · exact (hdigall x hx2).2
        · exact (by decide : ∀ y ∈ ((",\"message\":\"").toList : List Char), 32 ≤ y.toNat) x hx2
      · exact escapeJson_printable msg hctl x hx2
    · exact (by decide : ∀ y ∈ (("\"\x7d").toList : List Char), 32 ≤ y.toNat) x hx2

/-- Witness message containing all five special characters. -/
def c9msgW : List Char := ("a\"b\\c\nd\re\tf").toList

theorem c9_witness :
    (('"' ∈ c9msgW ∨ '\\' ∈ c9msgW ∨ '\n' ∈ c9msgW ∨ '\r' ∈ c9msgW ∨ '\t' ∈ c9msgW) ∧
      (∀ c ∈ c9msgW, 32 ≤ c.toNat ∨ c = '\n' ∨ c = '\r' ∨ c = '\t') ∧
      23 + (natDec 2).length + (escapeJson c9msgW).length ≤ 511) ∧
    (FormatJsonString true (some c9msgW) = some (escapeJson c9msgW) ∧
      parseJsonRecord (jsonRecordOf 2 (escapeJson c9msgW) false) =
        some (natDec 2, escapeJson c9msgW, false) ∧
      jsonUnescape (escapeJson c9msgW) = some c9msgW ∧
      ∀ x ∈ jsonRecordOf 2 (escapeJson c9msgW) false, 32 ≤ x.toNat) :=
  ⟨⟨by decide, by decide, by decide⟩,
    c9_roundtrip 2 c9msgW (by decide) (by decide) (by decide)⟩

/-- A message containing a newline (one of the five listed characters)
whose escaped record exceeds the 512-byte scratch buffer, and a raw 0x01
control byte. -/
def c9msgBad : List Char := Char.ofNat 1 :: (List.replicate 520 'a' ++ [Char.ofNat 10])

set_option maxRecDepth 10000 in
/-- C9 counterexample: for this message containing a newline, the emitted
record is truncated at the 511-character capacity of the 512-byte scratch
buffer — the closing quote and brace are cut off — so it is not a
syntactically valid JSON object and no standard decoder can reproduce the
original string from it, refuting the claim as stated for every input
string. -/
theorem c9_counterexample :
    (Char.ofNat 10 ∈ c9msgBad) ∧
    FormatJsonString true (some c9msgBad) = some (escapeJson c9msgBad) ∧
    (jsonRecordOf 2 (escapeJson c9msgBad) false).length = 511 ∧
    parseJsonRecord (jsonRecordOf 2 (escapeJson c9msgBad) false) = none := by
  exact ⟨by decide, by decide, by decide, by decide⟩
